import Mathlib

/-!
# DevShare backend — verification of the social-graph spec

Shallow embedding of the DevShare backend (a social platform with posts,
comments, replies, likes and notifications).  The repository contains two
parallel implementations: a MongoDB one under `backend/src` and a Firestore
one under `backend/app`.  Each database collection is modelled as a list of
records; the route handlers become pure state-transforming functions.

Document identifiers (Mongo `ObjectId`s, Firestore document ids) are
modelled as `Nat` on the Mongo side and `String` on the Firestore side,
matching how each implementation compares them.  Counters are `Int`
(Mongo `$inc` can drive a counter negative).  Timestamps are `Nat`.
-/

namespace DevShare

/-! ## Generic document-store primitives

`delete_one` removes the first matching document, `delete_many` removes all
matching documents returning `deleted_count`, and `update_one` applies an
update to the first matching document — the semantics of the corresponding
MongoDB collection operations used by the routes. -/

/-- Mongo `delete_one`: remove the first document satisfying `p`. -/
def delete_one {α : Type} (p : α → Bool) : List α → List α
  | [] => []
  | x :: xs => if p x then xs else x :: delete_one p xs

/-- Mongo `delete_many`: remove every document satisfying `p`;
returns `deleted_count` together with the remaining documents. -/
def delete_many {α : Type} (p : α → Bool) (l : List α) : Nat × List α :=
  ((l.filter p).length, l.filter (fun x => !p x))

/-- Mongo `update_one`: apply `f` to the first document satisfying `p`. -/
def update_one {α : Type} (p : α → Bool) (f : α → α) : List α → List α
  | [] => []
  | x :: xs => if p x then f x :: xs else x :: update_one p f xs

/-- Python `str.strip()`: drop leading and trailing whitespace.  Written
over the character list so that it evaluates by kernel reduction. -/
def py_strip (s : String) : String :=
  String.mk (((s.data.dropWhile Char.isWhitespace).reverse.dropWhile
    Char.isWhitespace).reverse)

/-! ## MongoDB implementation (`backend/src`): data model

Only the fields read or written by the modelled routes are carried. -/

/-- A document of the `posts` collection. -/
structure MPost where
  id : Nat
  user_id : Nat
  likes_count : Int
  comments_count : Int
  deriving DecidableEq, Repr

/-- A document of the `likes` collection (a like on a post). -/
structure MLike where
  user_id : Nat
  post_id : Nat
  created_at : Nat
  deriving DecidableEq, Repr

/-- A document of the `comments` collection. -/
structure MComment where
  id : Nat
  post_id : Nat
  user_id : Nat
  replies_count : Int
  deriving DecidableEq, Repr

/-- A document of the `replies` collection. -/
structure MReply where
  id : Nat
  user_id : Nat
  comment_id : Nat
  post_id : Nat
  content : String
  likes_count : Int
  created_at : Nat
  deriving DecidableEq, Repr

/-- A document of the `comment_likes` collection. -/
structure MCommentLike where
  user_id : Nat
  comment_id : Nat
  deriving DecidableEq, Repr

/-- A document of the `reply_likes` collection (carries the denormalized
`comment_id` and `post_id` the route inserts). -/
structure MReplyLike where
  user_id : Nat
  reply_id : Nat
  comment_id : Nat
  post_id : Nat
  created_at : Nat
  deriving DecidableEq, Repr

/-- A document of the `notifications` collection as written by the MongoDB
implementation: recipient, actor, a type tag and the optional references
passed by the creating route. -/
structure MNotif where
  recipient_id : Nat
  actor_id : Nat
  ntype : String
  post_id : Option Nat
  comment_id : Option Nat
  reply_id : Option Nat
  deriving DecidableEq, Repr

/-- The MongoDB database state: one list per collection. -/
structure MState where
  posts : List MPost
  likes : List MLike
  comments : List MComment
  replies : List MReply
  comment_likes : List MCommentLike
  reply_likes : List MReplyLike
  notifications : List MNotif
  deriving DecidableEq, Repr

/-! ## MongoDB implementation: helpers from `src/utils/social_utils.py`

The module `src/utils/social_utils.py` is imported by the routes
(`check_post_exists`, `check_comment_exists`, `check_reply_exists`,
`create_notification`, `delete_notification`) but its source is not in the
repository snapshot, so those helpers are modelled from the spec. -/

/-- Modelled from the spec: `check_post_exists` (in the missing
`src/utils/social_utils.py`) — the toggle and listing routes fail with a
not-found error (404) when the post does not exist, so the helper resolves
the post id and signals the error when no post matches.  `none` stands for
the `(error, 404)` outcome. -/
def check_post_exists (post_id : Nat) (st : MState) : Option MPost :=
  st.posts.find? (fun p => p.id == post_id)

/-- Modelled from the spec: `check_comment_exists` (in the missing
`src/utils/social_utils.py`) — per the spec, reply creation fails with a
not-found error if the parent comment is missing; the helper returns the
comment document otherwise. -/
def check_comment_exists (comment_id : Nat) (st : MState) : Option MComment :=
  st.comments.find? (fun c => c.id == comment_id)

/-- Modelled from the spec: `check_reply_exists` (in the missing
`src/utils/social_utils.py`) — resolves a reply id, signalling a not-found
error when no reply matches. -/
def check_reply_exists (reply_id : Nat) (st : MState) : Option MReply :=
  st.replies.find? (fun r => r.id == reply_id)

/-- Modelled from the spec: `create_notification` (in the missing
`src/utils/social_utils.py`) — §4.3 Notification Writer: a no-op returning
no identifier when recipient equals actor, otherwise persists a
notification carrying the recipient, actor, type and the provided
post/comment/reply references. -/
def m_create_notification (recipient_id actor_id : Nat) (ntype : String)
    (post_id comment_id reply_id : Option Nat) (st : MState) : MState :=
  if recipient_id = actor_id then st
  else { st with notifications := st.notifications ++
          [{ recipient_id := recipient_id, actor_id := actor_id,
             ntype := ntype, post_id := post_id,
             comment_id := comment_id, reply_id := reply_id }] }

/-- Does a stored notification match the recipient, actor, type and every
reference that the caller provided? -/
def m_notif_matches (recipient_id actor_id : Nat) (ntype : String)
    (post_id comment_id reply_id : Option Nat) (n : MNotif) : Bool :=
  n.recipient_id == recipient_id && n.actor_id == actor_id &&
  n.ntype == ntype &&
  (post_id.isNone || n.post_id == post_id) &&
  (comment_id.isNone || n.comment_id == comment_id) &&
  (reply_id.isNone || n.reply_id == reply_id)

/-- Modelled from the spec: `delete_notification` (in the missing
`src/utils/social_utils.py`) — §4.3 Notification Writer: deletes the single
notification matching all provided reference fields exactly; a no-op if
none match. -/
def m_delete_notification (recipient_id actor_id : Nat) (ntype : String)
    (post_id comment_id reply_id : Option Nat) (st : MState) : MState :=
  { st with notifications :=
      delete_one (m_notif_matches recipient_id actor_id ntype
        post_id comment_id reply_id) st.notifications }

/-! ## MongoDB implementation: the like-toggle route

`PostLike.post` in `src/routes/social/likes.py` (lines 52–144). -/

/-- Caller-visible outcome of the like-toggle route: the 404 from
`check_post_exists`, or the 200 body `{liked, likes_count}`. -/
inductive ToggleResult where
  | notFound
  | ok (liked : Bool) (likes_count : Int)
  deriving DecidableEq, Repr

/-- The like document matching a `(user, post)` pair. -/
def like_pred (user_id post_id : Nat) (l : MLike) : Bool :=
  l.user_id == user_id && l.post_id == post_id

/-- `PostLike.post` (`src/routes/social/likes.py` 52–144): toggle
like/unlike for a post.  `now` stands for `datetime.utcnow()`. -/
def toggleLike (user_id post_id : Nat) (now : Nat) (st : MState) :
    ToggleResult × MState :=
  match check_post_exists post_id st with
  | none => (.notFound, st)
  | some _ =>
    match st.likes.find? (like_pred user_id post_id) with
    | some _ =>
      -- Unlike: delete the like, decrement likes_count, re-read the post,
      -- delete the notification created when liking.
      let likes' := delete_one (like_pred user_id post_id) st.likes
      let posts' := update_one (fun p => p.id == post_id)
        (fun p => { p with likes_count := p.likes_count - 1 }) st.posts
      match posts'.find? (fun p => p.id == post_id) with
      | some updated_post =>
        let st' : MState := { st with likes := likes', posts := posts' }
        let st'' := m_delete_notification updated_post.user_id user_id
          "post_liked" (some post_id) none none st'
        (.ok false updated_post.likes_count, st'')
      | none =>
        -- Unreachable: the post was found above and update_one keeps it.
        (.ok false 0, { st with likes := likes', posts := posts' })
    | none =>
      -- Like: insert the like, increment likes_count, re-read the post,
      -- notify the post owner.
      let likes' := st.likes ++
        [{ user_id := user_id, post_id := post_id, created_at := now }]
      let posts' := update_one (fun p => p.id == post_id)
        (fun p => { p with likes_count := p.likes_count + 1 }) st.posts
      match posts'.find? (fun p => p.id == post_id) with
      | some updated_post =>
        let st' : MState := { st with likes := likes', posts := posts' }
        let st'' := m_create_notification updated_post.user_id user_id
          "post_liked" (some post_id) none none st'
        (.ok true updated_post.likes_count, st'')
      | none =>
        (.ok true 0, { st with likes := likes', posts := posts' })

/-! ## MongoDB implementation: post deletion

`UserPostDetail.delete` in `src/routes/profile_posts.py` (lines 364–432). -/

/-- The per-category deleted counts the route writes to the server log
(`logger.info`, line 427): post likes, comments, replies, notifications.
The comment/reply like deletions are mentioned in the log line but not
counted. -/
structure DeleteLog where
  likes_deleted : Nat
  comments_deleted : Nat
  replies_deleted : Nat
  notifications_deleted : Nat
  deriving DecidableEq, Repr

/-- Caller-visible outcome of the post-deletion route: a 404, or the 200
body `{"message": ...}`. -/
inductive DeletePostResp where
  | notFound
  | ok (message : String)
  deriving DecidableEq, Repr

/-- `UserPostDetail.delete` (`src/routes/profile_posts.py` 364–432):
delete a post owned by the caller, cascading over likes, comments,
comment likes, replies, reply likes and notifications.  Returns the HTTP
response, the server-side log record (when one is written) and the new
state. -/
def deletePost (user_id post_id : Nat) (st : MState) :
    DeletePostResp × Option DeleteLog × MState :=
  match st.posts.find? (fun p => p.id == post_id && p.user_id == user_id) with
  | none => (.notFound, none, st)
  | some _ =>
    -- 1. Delete all likes for this post.
    let likesRes := delete_many (fun l => l.post_id == post_id) st.likes
    -- 2. Get all comments for this post.
    let comments := st.comments.filter (fun c => c.post_id == post_id)
    let comment_ids := comments.map (fun c => c.id)
    -- 3. Delete all comment likes (guarded on a nonempty id list).
    let comment_likes' :=
      if comment_ids.isEmpty then st.comment_likes
      else (delete_many (fun cl => comment_ids.contains cl.comment_id)
              st.comment_likes).2
    -- 4. Get all replies to comments on this post.
    let replies :=
      if comment_ids.isEmpty then []
      else st.replies.filter (fun r => comment_ids.contains r.comment_id)
    let reply_ids := replies.map (fun r => r.id)
    -- 5. Delete all reply likes.
    let reply_likes' :=
      if reply_ids.isEmpty then st.reply_likes
      else (delete_many (fun rl => reply_ids.contains rl.reply_id)
              st.reply_likes).2
    -- 6. Delete all replies to comments on this post.
    let repliesRes :=
      if comment_ids.isEmpty then (0, st.replies)
      else delete_many (fun r => comment_ids.contains r.comment_id) st.replies
    -- 7. Delete all comments for this post.
    let commentsRes := delete_many (fun c => c.post_id == post_id) st.comments
    -- 8. Delete all notifications related to this post.
    let notifsRes :=
      delete_many (fun n => n.post_id == some post_id) st.notifications
    -- 9. Delete the post itself, checking deleted_count.
    let post_existed := st.posts.any (fun p => p.id == post_id)
    let posts' := delete_one (fun p => p.id == post_id) st.posts
    let st' : MState :=
      { posts := posts', likes := likesRes.2, comments := commentsRes.2,
        replies := repliesRes.2, comment_likes := comment_likes',
        reply_likes := reply_likes', notifications := notifsRes.2 }
    if !post_existed then (.notFound, none, st')
    else
      (.ok "Post deleted successfully",
       some { likes_deleted := likesRes.1, comments_deleted := commentsRes.1,
              replies_deleted := repliesRes.1,
              notifications_deleted := notifsRes.1 },
       st')

/-! ## MongoDB implementation: reply creation and deletion

`CommentReplies.post` (lines 71–147) and `ReplyModify.delete`
(lines 230–269) in `src/routes/social/replies.py`. -/

/-- Caller-visible outcome of the add-reply route: 400 for empty content,
404 for a missing comment, or 201 with the created reply. -/
inductive AddReplyResp where
  | emptyContent
  | commentNotFound
  | created (reply : MReply)
  deriving DecidableEq, Repr

/-- `CommentReplies.post` (`src/routes/social/replies.py` 71–147): add a
reply to a comment.  `new_reply_id` stands for the id MongoDB assigns to
the inserted document and `now` for `datetime.utcnow()`.  The inserted
document stores no `likes_count`; readers default the missing field to 0,
so the model stores 0 directly. -/
def addReply (user_id comment_id : Nat) (content : String)
    (new_reply_id : Nat) (now : Nat) (st : MState) : AddReplyResp × MState :=
  let content := py_strip content
  if content.isEmpty then (.emptyContent, st)
  else
    match check_comment_exists comment_id st with
    | none => (.commentNotFound, st)
    | some comment =>
      let reply : MReply :=
        { id := new_reply_id, user_id := user_id, comment_id := comment_id,
          post_id := comment.post_id, content := content,
          likes_count := 0, created_at := now }
      let replies' := st.replies ++ [reply]
      -- Update comment replies count.
      let comments' := update_one (fun c => c.id == comment_id)
        (fun c => { c with replies_count := c.replies_count + 1 }) st.comments
      -- Update post comments count (includes replies in the total).
      let posts' := update_one (fun p => p.id == comment.post_id)
        (fun p => { p with comments_count := p.comments_count + 1 }) st.posts
      let st' : MState :=
        { st with replies := replies', comments := comments', posts := posts' }
      -- Notify the comment owner; create_notification itself suppresses
      -- the self-notification case.
      let post_owner? :=
        (st'.posts.find? (fun p => p.id == comment.post_id)).map
          (fun p => p.user_id)
      let st'' := m_create_notification comment.user_id user_id "reply_added"
        (some comment.post_id) (some comment.id) (some new_reply_id) st'
      -- Notify the post owner if different from the comment owner and
      -- from the replier.
      let st''' :=
        match post_owner? with
        | some post_owner =>
          if post_owner ≠ comment.user_id ∧ post_owner ≠ user_id then
            m_create_notification post_owner user_id "reply_added"
              (some comment.post_id) (some comment.id) (some new_reply_id) st''
          else st''
        | none => st''
      (.created reply, st''')

/-- Caller-visible outcome of the reply-deletion route: 404, 403, the 500
raised when the denormalized post is missing, or the 200 message. -/
inductive DeleteReplyResp where
  | notFound
  | forbidden
  | serverError
  | ok
  deriving DecidableEq, Repr

/-- `ReplyModify.delete` (`src/routes/social/replies.py` 230–269): delete a
reply; allowed for the reply owner or the post owner.  When the
denormalized post is absent, `post["user_id"]` raises before any write and
the handler returns 500. -/
def deleteReply (user_id reply_id : Nat) (st : MState) :
    DeleteReplyResp × MState :=
  match check_reply_exists reply_id st with
  | none => (.notFound, st)
  | some reply =>
    match st.posts.find? (fun p => p.id == reply.post_id) with
    | none => (.serverError, st)
    | some post =>
      if reply.user_id ≠ user_id ∧ post.user_id ≠ user_id then (.forbidden, st)
      else
        -- 1. Delete all likes on this reply.
        let reply_likes' :=
          (delete_many (fun rl => rl.reply_id == reply_id) st.reply_likes).2
        -- 2. Delete the reply itself.
        let replies' := delete_one (fun r => r.id == reply_id) st.replies
        -- Update comment replies count.
        let comments' := update_one (fun c => c.id == reply.comment_id)
          (fun c => { c with replies_count := c.replies_count - 1 }) st.comments
        -- Update post comments count.
        let posts' := update_one (fun p => p.id == reply.post_id)
          (fun p => { p with comments_count := p.comments_count - 1 }) st.posts
        let st' : MState :=
          { st with
            reply_likes := reply_likes', replies := replies',
            comments := comments', posts := posts' }
        (.ok, st')

/-! ## MongoDB implementation: like listings

`PostLikes.get` in `src/routes/social/likes.py` (lines 154–180) and
`ReplyLikes.get` in `src/routes/social/replies.py` (lines 277–294).
Both routes run `find(filter).sort("created_at", -1)` and build the
response in that order; the per-item formatting (user lookup, string
conversion) is order-preserving and keeps one entry per like document, so
the model returns the like documents themselves. -/

/-- Caller-visible outcome of the post-likes listing. -/
inductive PostLikesResp where
  | notFound
  | ok (likes : List MLike)
  deriving DecidableEq, Repr

/-- Caller-visible outcome of the reply-likes listing. -/
inductive ReplyLikesResp where
  | notFound
  | ok (likes : List MReplyLike)
  deriving DecidableEq, Repr

/-- `PostLikes.get` (`src/routes/social/likes.py` 154–180): all likes of a
post, newest first. -/
def getPostLikes (post_id : Nat) (st : MState) : PostLikesResp :=
  match check_post_exists post_id st with
  | none => .notFound
  | some _ =>
    .ok ((st.likes.filter (fun l => l.post_id == post_id)).insertionSort
          (fun a b => b.created_at ≤ a.created_at))

/-- `ReplyLikes.get` (`src/routes/social/replies.py` 277–294): all likes of
a reply, newest first. -/
def getReplyLikes (reply_id : Nat) (st : MState) : ReplyLikesResp :=
  match check_reply_exists reply_id st with
  | none => .notFound
  | some _ =>
    .ok ((st.reply_likes.filter (fun l => l.reply_id == reply_id)).insertionSort
          (fun a b => b.created_at ≤ a.created_at))

/-! ## Firestore implementation (`backend/app`): data model

Firestore document ids are strings.  Replies live in the `comments`
collection, distinguished by a `parentId` field; likes of both comments and
replies live in `commentLikes`. -/

/-- Python truthiness of an optional string value. -/
def truthy : Option String → Bool
  | none => false
  | some s => !s.isEmpty

/-- A document of the Firestore `posts` collection. -/
structure FsPost where
  id : String
  userId : String
  title : Option String
  deriving DecidableEq, Repr

/-- A document of the Firestore `users` collection (fields read by
`get_user_display_name`). -/
structure FsUser where
  id : String
  displayName : Option String
  username : Option String
  deriving DecidableEq, Repr

/-- A Firebase Auth account as seen by `auth.get_user`. -/
structure AuthUser where
  display_name : Option String
  email : Option String
  deriving DecidableEq, Repr

/-- A document of the Firestore `comments` collection; replies carry a
`parentId`.  `deleted` is the soft-delete flag the delete routes set. -/
structure FsComment where
  id : String
  userId : String
  postId : Option String
  parentId : Option String
  text : Option String
  deleted : Bool
  deriving DecidableEq, Repr

/-- A document of the Firestore `commentLikes` collection. -/
structure FsCommentLike where
  id : String
  commentId : String
  userId : String
  deriving DecidableEq, Repr

/-- A document of the Firestore `notifications` collection, as written by
`create_notification` in `app/utils/user.py`. -/
structure FsNotif where
  id : String
  recipientId : String
  senderId : String
  senderName : String
  ntype : String
  read : Bool
  message : String
  postId : Option String
  postTitle : Option String
  commentId : Option String
  content : Option String
  deriving DecidableEq, Repr

/-- The Firestore database state.  `nextId` generates the auto ids
`create_document` hands out. -/
structure FsState where
  posts : List FsPost
  users : List FsUser
  comments : List FsComment
  commentLikes : List FsCommentLike
  notifications : List FsNotif
  nextId : Nat
  deriving DecidableEq, Repr

/-! ## Firestore implementation: notification writer

`get_user_display_name`, `create_notification` and `delete_notifications`
in `app/utils/user.py`. -/

/-- `get_user_display_name` (`app/utils/user.py` 9–50): stored profile
display name → stored profile username → auth display name → local part of
the auth email → the literal fallback.  `auth_user?` stands for the
`auth.get_user` result, `none` when that call raises. -/
def get_user_display_name (auth_user? : Option AuthUser) (user_id : String)
    (st : FsState) : String :=
  match st.users.find? (fun u => u.id == user_id) with
  | some user_data =>
    if truthy user_data.displayName then user_data.displayName.getD ""
    else if truthy user_data.username then user_data.username.getD ""
    else match auth_user? with
      | some auth_user =>
        if truthy auth_user.display_name then auth_user.display_name.getD ""
        else if truthy auth_user.email then
          ((auth_user.email.getD "").splitOn "@").headD ""
        else "A user"
      | none => "A user"
  | none =>
    match auth_user? with
    | some auth_user =>
      if truthy auth_user.display_name then auth_user.display_name.getD ""
      else if truthy auth_user.email then
        ((auth_user.email.getD "").splitOn "@").headD ""
      else "A user"
    | none => "A user"

/-- The canned message `create_notification` builds for each type. -/
def fs_notif_message (notification_type sender_name : String)
    (post_title content : Option String) : String :=
  let project_title :=
    if truthy post_title then "\"" ++ post_title.getD "" ++ "\""
    else "your project"
  let content_preview :=
    if truthy content then ": \"" ++ (content.getD "").take 100 ++ "...\""
    else ""
  if notification_type == "like" then
    sender_name ++ " liked " ++ project_title
  else if notification_type == "comment" then
    sender_name ++ " commented on " ++ project_title ++ content_preview
  else if notification_type == "comment_like" then
    sender_name ++ " liked your comment" ++ content_preview
  else if notification_type == "reply" then
    sender_name ++ " replied to your comment" ++ content_preview
  else if notification_type == "reply_like" then
    sender_name ++ " liked your reply" ++ content_preview
  else ""

/-- `create_notification` (`app/utils/user.py` 52–131): validates the
required parameters (Python truthiness), suppresses self-notifications,
resolves the sender display name, builds the message and persists the
document with a generated id.  Returns the created id, `none` when
nothing was created. -/
def fs_create_notification (auth_sender? : Option AuthUser)
    (recipient_id sender_id : String) (post_id post_title comment_id : Option String)
    (notification_type : String) (read : Bool) (content : Option String)
    (st : FsState) : Option String × FsState :=
  if !truthy (some recipient_id) || !truthy (some sender_id) then (none, st)
  else if recipient_id == sender_id then (none, st)
  else
    let sender_name := get_user_display_name auth_sender? sender_id st
    let doc_id := "notif" ++ toString st.nextId
    let n : FsNotif :=
      { id := doc_id, recipientId := recipient_id, senderId := sender_id,
        senderName := sender_name, ntype := notification_type, read := read,
        message := fs_notif_message notification_type sender_name post_title content,
        postId := if truthy post_id then post_id else none,
        postTitle := if truthy post_title then post_title else none,
        commentId := if truthy comment_id then comment_id else none,
        content := if truthy content then content else none }
    (some doc_id,
     { st with notifications := st.notifications ++ [n], nextId := st.nextId + 1 })

/-- Does a notification match every filter `delete_notifications` builds
from its truthy arguments? -/
def fs_notif_matches (recipient_id sender_id post_id comment_id
    notification_type : Option String) (n : FsNotif) : Bool :=
  (if truthy recipient_id then some n.recipientId == recipient_id else true) &&
  (if truthy sender_id then some n.senderId == sender_id else true) &&
  (if truthy post_id then n.postId == post_id else true) &&
  (if truthy comment_id then n.commentId == comment_id else true) &&
  (if truthy notification_type then some n.ntype == notification_type else true)

/-- `delete_notifications` (`app/utils/user.py` 133–184): requires at least
one truthy filter argument, else deletes nothing and returns 0; otherwise
deletes every notification matching all provided filters and returns the
count. -/
def fs_delete_notifications (recipient_id sender_id post_id comment_id
    notification_type : Option String) (st : FsState) : Nat × FsState :=
  if !(truthy recipient_id || truthy sender_id || truthy post_id ||
       truthy comment_id || truthy notification_type) then (0, st)
  else
    let res := delete_many
      (fs_notif_matches recipient_id sender_id post_id comment_id
        notification_type) st.notifications
    (res.1, { st with notifications := res.2 })

/-! ## Firestore implementation: comment deletion

`comment_operations` in `app/routes/comments.py` (lines 81–177), DELETE
branch.  The handler runs its reads (`query_documents`) against the
pre-commit state, issues `delete_notifications` calls immediately, and
stages the comment/reply updates and like deletions in a batch committed
at the end; collections touched by the batch and by the notification
deletions are disjoint, so the model applies them in sequence. -/

/-- Caller-visible outcome of the comment routes used here. -/
inductive FsResp where
  | notFound
  | forbidden
  | ok (message : String)
  deriving DecidableEq, Repr

/-- `comment_operations` DELETE (`app/routes/comments.py` 97–177): only the
comment author passes the ownership check; the comment and its replies are
soft-deleted (marked `deleted`), their likes removed, and the notifications
referencing them deleted. -/
def fs_deleteComment (user_id comment_id : String) (st : FsState) :
    FsResp × FsState :=
  match st.comments.find? (fun c => c.id == comment_id) with
  | none => (.notFound, st)
  | some comment =>
    if comment.userId ≠ user_id then (.forbidden, st)
    else
      -- Replies are queried before the batch commits.
      let replies := st.comments.filter (fun c => c.parentId == some comment_id)
      let reply_ids := replies.map (fun r => r.id)
      -- batch.update: mark the comment and every reply as deleted.
      let comments' := st.comments.map (fun c =>
        if c.id == comment_id || reply_ids.contains c.id then
          { c with deleted := true }
        else c)
      -- batch.delete: likes of each reply and of the main comment.
      let commentLikes' := st.commentLikes.filter (fun l =>
        !(reply_ids.contains l.commentId || l.commentId == comment_id))
      -- delete_notifications for the comment itself.
      let st1 := (fs_delete_notifications none none none (some comment_id)
        none st).2
      -- delete_notifications for each reply, and per reply like the
      -- type-restricted deletion (a subset of the former).
      let st2 := replies.foldl (fun acc r =>
        let acc1 := (fs_delete_notifications none none none (some r.id)
          none acc).2
        (st.commentLikes.filter (fun l => l.commentId == r.id)).foldl
          (fun acc2 _ => (fs_delete_notifications none none none (some r.id)
            (some "comment_like") acc2).2) acc1) st1
      -- Per like of the main comment, the type-restricted deletion.
      let st3 := (st.commentLikes.filter (fun l => l.commentId == comment_id)).foldl
        (fun acc _ => (fs_delete_notifications none none none (some comment_id)
          (some "comment_like") acc).2) st2
      (.ok "Comment and all replies deleted successfully",
       { st3 with comments := comments', commentLikes := commentLikes' })

/-! ## Derived observations used by the statements -/

/-- Number of `likes` documents stored for the pair `(user_id, post_id)`. -/
def likeCount (st : MState) (user_id post_id : Nat) : Nat :=
  (st.likes.filter (like_pred user_id post_id)).length

/-- Iterate the like-toggle route `n` times for the same user and post. -/
def toggleLikeIter (user_id post_id now : Nat) : Nat → MState → MState
  | 0, st => st
  | n + 1, st => toggleLikeIter user_id post_id now n
      (toggleLike user_id post_id now st).2

/-- Ids of the comments stored for a post. -/
def commentIdsOf (st : MState) (post_id : Nat) : List Nat :=
  (st.comments.filter (fun c => c.post_id == post_id)).map (fun c => c.id)

/-- Ids of the replies stored under any comment of a post. -/
def replyIdsOf (st : MState) (post_id : Nat) : List Nat :=
  (st.replies.filter
    (fun r => (commentIdsOf st post_id).contains r.comment_id)).map
    (fun r => r.id)

/-! ## Concrete states for witnesses and counterexamples -/

/-- A MongoDB state with no posts at all. -/
def exEmpty : MState :=
  { posts := [], likes := [], comments := [], replies := [],
    comment_likes := [], reply_likes := [], notifications := [] }

/-- A post together with its full dependent graph: a like, a comment with a
comment like, a reply with a reply like, and notifications for the like and
the reply like. -/
def exRich : MState :=
  { posts := [{ id := 1, user_id := 10, likes_count := 1, comments_count := 2 }],
    likes := [{ user_id := 7, post_id := 1, created_at := 4 }],
    comments := [{ id := 2, post_id := 1, user_id := 11, replies_count := 1 }],
    replies := [{ id := 3, user_id := 12, comment_id := 2, post_id := 1,
                  content := "hi", likes_count := 1, created_at := 5 }],
    comment_likes := [{ user_id := 7, comment_id := 2 }],
    reply_likes := [{ user_id := 13, reply_id := 3, comment_id := 2,
                      post_id := 1, created_at := 6 }],
    notifications :=
      [{ recipient_id := 10, actor_id := 7, ntype := "post_liked",
         post_id := some 1, comment_id := none, reply_id := none },
       { recipient_id := 12, actor_id := 13, ntype := "reply_liked",
         post_id := some 1, comment_id := some 2, reply_id := some 3 }] }

/-- A state where user 7 has already liked post 1 (`likes_count = 1`). -/
def exLiked : MState :=
  { posts := [{ id := 1, user_id := 10, likes_count := 1, comments_count := 0 }],
    likes := [{ user_id := 7, post_id := 1, created_at := 4 }],
    comments := [], replies := [], comment_likes := [], reply_likes := [],
    notifications := [] }

/-- Same post as `exLiked` but with no like yet (`likes_count = 0`). -/
def exUnliked : MState :=
  { posts := [{ id := 1, user_id := 10, likes_count := 0, comments_count := 0 }],
    likes := [], comments := [], replies := [], comment_likes := [],
    reply_likes := [], notifications := [] }

/-- A Firestore state: a post by `bob` with a comment by `alice`, a reply
by `carol` under it, likes on both, and notifications referencing the
comment and the reply. -/
def exFs : FsState :=
  { posts := [{ id := "p1", userId := "bob", title := some "T" }],
    users := [],
    comments :=
      [{ id := "c1", userId := "alice", postId := some "p1",
         parentId := none, text := some "t", deleted := false },
       { id := "r1", userId := "carol", postId := some "p1",
         parentId := some "c1", text := some "r", deleted := false }],
    commentLikes :=
      [{ id := "l1", commentId := "c1", userId := "dave" },
       { id := "l2", commentId := "r1", userId := "erin" }],
    notifications :=
      [{ id := "n1", recipientId := "alice", senderId := "dave",
         senderName := "Dave", ntype := "comment_like", read := false,
         message := "m", postId := some "p1", postTitle := some "T",
         commentId := some "c1", content := none },
       { id := "n2", recipientId := "carol", senderId := "erin",
         senderName := "Erin", ntype := "comment_like", read := false,
         message := "m", postId := some "p1", postTitle := some "T",
         commentId := some "r1", content := none }],
    nextId := 0 }

/-- Sorting by `created_at`, newest first, is a total relation. -/
instance : IsTotal MLike (fun a b => b.created_at ≤ a.created_at) :=
  ⟨fun a b => le_total b.created_at a.created_at⟩

/-- Sorting by `created_at`, newest first, is transitive. -/
instance : IsTrans MLike (fun a b => b.created_at ≤ a.created_at) :=
  ⟨fun _ _ _ hab hbc => le_trans hbc hab⟩

/-- Sorting reply likes by `created_at`, newest first, is total. -/
instance : IsTotal MReplyLike (fun a b => b.created_at ≤ a.created_at) :=
  ⟨fun a b => le_total b.created_at a.created_at⟩

/-- Sorting reply likes by `created_at`, newest first, is transitive. -/
instance : IsTrans MReplyLike (fun a b => b.created_at ≤ a.created_at) :=
  ⟨fun _ _ _ hab hbc => le_trans hbc hab⟩

/-! # Theorems

First the generic lemmas about the store primitives, then the
state-preservation lemmas, then one theorem per claim (with its witness or
counterexample). -/

theorem mem_delete_many {α : Type} (p : α → Bool) (l : List α) (x : α) :
    x ∈ (delete_many p l).2 ↔ x ∈ l ∧ p x = false := by
  simp [delete_many, List.mem_filter]

theorem find?_update_one {α : Type} (p : α → Bool) (f : α → α) (l : List α)
    (a : α) (hfind : l.find? p = some a) (hp : p (f a) = true) :
    (update_one p f l).find? p = some (f a) := by
  induction l with
  | nil => simp [List.find?] at hfind
  | cons x xs ih =>
    by_cases hx : p x
    · simp [List.find?, hx] at hfind
      subst hfind
      simp [update_one, hx, List.find?, hp]
    · simp [List.find?, hx] at hfind
      simp [update_one, hx, List.find?, ih hfind]

theorem filter_delete_one_length {α : Type} (p : α → Bool) (l : List α)
    (a : α) (hfind : l.find? p = some a) :
    ((delete_one p l).filter p).length + 1 = (l.filter p).length := by
  induction l with
  | nil => simp [List.find?] at hfind
  | cons x xs ih =>
    by_cases hx : p x
    · simp [delete_one, hx, List.filter_cons, hx]
    · simp [List.find?, hx] at hfind
      simp [delete_one, hx, List.filter_cons, hx, ih hfind]

theorem mem_delete_one {α : Type} (p : α → Bool) (l : List α) (x : α)
    (hx : x ∈ delete_one p l) : x ∈ l := by
  induction l with
  | nil => simp [delete_one] at hx
  | cons y ys ih =>
    by_cases hy : p y
    · simp only [delete_one, if_pos hy] at hx
      exact List.mem_cons_of_mem y hx
    · simp [delete_one, hy] at hx
      rcases hx with h | h
      · exact h ▸ List.mem_cons_self y ys
      · exact List.mem_cons_of_mem y (ih h)

/-! ## State-preservation lemmas for the notification helpers -/

theorem m_create_notification_posts (r a : Nat) (t : String)
    (pid cid rid : Option Nat) (st : MState) :
    (m_create_notification r a t pid cid rid st).posts = st.posts := by
  unfold m_create_notification; split <;> rfl

theorem m_create_notification_likes (r a : Nat) (t : String)
    (pid cid rid : Option Nat) (st : MState) :
    (m_create_notification r a t pid cid rid st).likes = st.likes := by
  unfold m_create_notification; split <;> rfl

theorem m_create_notification_comments (r a : Nat) (t : String)
    (pid cid rid : Option Nat) (st : MState) :
    (m_create_notification r a t pid cid rid st).comments = st.comments := by
  unfold m_create_notification; split <;> rfl

theorem m_create_notification_replies (r a : Nat) (t : String)
    (pid cid rid : Option Nat) (st : MState) :
    (m_create_notification r a t pid cid rid st).replies = st.replies := by
  unfold m_create_notification; split <;> rfl

theorem m_delete_notification_posts (r a : Nat) (t : String)
    (pid cid rid : Option Nat) (st : MState) :
    (m_delete_notification r a t pid cid rid st).posts = st.posts := rfl

theorem m_delete_notification_likes (r a : Nat) (t : String)
    (pid cid rid : Option Nat) (st : MState) :
    (m_delete_notification r a t pid cid rid st).likes = st.likes := rfl

/-! ## C7 — like-toggle on a missing post is a pure 404 -/

/-- C7: for every user and every post id that does not refer to an existing
post, the like-toggle operation returns the not-found error and performs no
mutation at all: the returned state is the input state, so no like,
counter, or notification changes; the existence check precedes every
write. -/
theorem toggleLike_missing_post (user_id post_id now : Nat) (st : MState)
    (h : st.posts.find? (fun p => p.id == post_id) = none) :
    toggleLike user_id post_id now st = (.notFound, st) := by
  unfold toggleLike check_post_exists
  rw [h]

/-- Witness for C7 at the empty state. -/
theorem toggleLike_missing_post_witness :
    exEmpty.posts.find? (fun p => p.id == 2) = none ∧
    toggleLike 1 2 3 exEmpty = (.notFound, exEmpty) :=
  ⟨by decide, toggleLike_missing_post 1 2 3 exEmpty (by decide)⟩

/-! ## C3 — no self-notifications -/

/-- C3: the Firestore notification writer never creates a notification
whose recipient equals its actor: when `recipient_id = sender_id` the call
is a no-op returning no identifier and leaving the state unchanged, and in
general every notification it appends has distinct recipient and sender.
Every social route creates notifications only through this writer (the
MongoDB implementation goes through the spec-modelled
`m_create_notification`, which suppresses the same case). -/
theorem create_notification_no_self (au : Option AuthUser)
    (recipient_id sender_id : String) (pid ptitle cid : Option String)
    (ty : String) (rd : Bool) (content : Option String) (st : FsState) :
    (recipient_id = sender_id →
      fs_create_notification au recipient_id sender_id pid ptitle cid ty rd
        content st = (none, st)) ∧
    ∃ tail,
      (fs_create_notification au recipient_id sender_id pid ptitle cid ty rd
        content st).2.notifications = st.notifications ++ tail ∧
      ∀ n ∈ tail, n.recipientId ≠ n.senderId := by
  unfold fs_create_notification
  by_cases hval : !truthy (some recipient_id) || !truthy (some sender_id)
  · rw [if_pos hval]
    exact ⟨fun _ => rfl, [], by simp⟩
  · rw [if_neg hval]
    by_cases heq : recipient_id == sender_id
    · rw [if_pos heq]
      exact ⟨fun _ => rfl, [], by simp⟩
    · rw [if_neg heq]
      refine ⟨fun h => absurd (by simp [h]) heq, _, rfl, ?_⟩
      intro n hn
      simp at hn
      subst hn
      simpa using fun h => heq (by simp [h])

/-- Witness for C3: a concrete self-notification attempt is suppressed. -/
theorem create_notification_no_self_witness :
    fs_create_notification none "u1" "u1" none none none "like" false none
      exFs = (none, exFs) :=
  (create_notification_no_self none "u1" "u1" none none none "like" false
    none exFs).1 rfl

/-! ## C9 — the bulk notification deleter is safe without filters -/

/-- C9: invoked with no filter argument at all, `delete_notifications`
deletes nothing and returns 0; and every notification it ever deletes
matches every (hence at least one) caller-supplied filter, so the
delete-everything branch is unreachable. -/
theorem delete_notifications_safe (st : FsState) :
    fs_delete_notifications none none none none none st = (0, st) ∧
    ∀ (r s p c t : Option String) (n : FsNotif),
      n ∈ st.notifications →
      n ∉ (fs_delete_notifications r s p c t st).2.notifications →
      fs_notif_matches r s p c t n = true := by
  constructor
  · rfl
  · intro r s p c t n hn hout
    unfold fs_delete_notifications at hout
    by_cases hg : !(truthy r || truthy s || truthy p || truthy c || truthy t)
    · rw [if_pos hg] at hout
      exact absurd hn hout
    · rw [if_neg hg] at hout
      by_contra hmatch
      exact hout ((mem_delete_many _ _ _).mpr
        ⟨hn, by simpa using hmatch⟩)

/-- Witness for C9 at a concrete state with notifications present. -/
theorem delete_notifications_safe_witness :
    fs_delete_notifications none none none none none exFs = (0, exFs) :=
  (delete_notifications_safe exFs).1

/-! ## C10 — like listings are newest-first and tolerate emptiness -/

/-- C10: listing the likes of an existing post returns exactly the like
documents of that post sorted by creation timestamp, newest first, and the
empty list (not an error) when there are none; the same holds for listing
the likes of an existing reply. -/
theorem like_listings_sorted (post_id reply_id : Nat) (st : MState)
    (hp : (st.posts.find? (fun p => p.id == post_id)).isSome)
    (hr : (st.replies.find? (fun r => r.id == reply_id)).isSome) :
    (∃ l, getPostLikes post_id st = .ok l ∧
      l.Perm (st.likes.filter (fun x => x.post_id == post_id)) ∧
      List.Sorted (fun a b => b.created_at ≤ a.created_at) l ∧
      (st.likes.filter (fun x => x.post_id == post_id) = [] → l = [])) ∧
    (∃ l, getReplyLikes reply_id st = .ok l ∧
      l.Perm (st.reply_likes.filter (fun x => x.reply_id == reply_id)) ∧
      List.Sorted (fun a b => b.created_at ≤ a.created_at) l ∧
      (st.reply_likes.filter (fun x => x.reply_id == reply_id) = [] →
        l = [])) := by
  obtain ⟨q, hq⟩ := Option.isSome_iff_exists.mp hp
  obtain ⟨w, hw⟩ := Option.isSome_iff_exists.mp hr
  constructor
  · refine ⟨_, ?_, List.perm_insertionSort _ _,
      List.sorted_insertionSort _ _, ?_⟩
    · unfold getPostLikes check_post_exists
      rw [hq]
    · intro hnil; rw [hnil]; rfl
  · refine ⟨_, ?_, List.perm_insertionSort _ _,
      List.sorted_insertionSort _ _, ?_⟩
    · unfold getReplyLikes check_reply_exists
      rw [hw]
    · intro hnil; rw [hnil]; rfl

/-- Witness for C10 on the populated example state. -/
theorem like_listings_sorted_witness :
    ((exRich.posts.find? (fun p => p.id == 1)).isSome ∧
      (exRich.replies.find? (fun r => r.id == 3)).isSome) ∧
    ∃ l, getPostLikes 1 exRich = .ok l ∧
      l.Perm (exRich.likes.filter (fun x => x.post_id == 1)) ∧
      List.Sorted (fun a b => b.created_at ≤ a.created_at) l ∧
      (exRich.likes.filter (fun x => x.post_id == 1) = [] → l = []) :=
  ⟨⟨by decide, by decide⟩,
    (like_listings_sorted 1 3 exRich (by decide) (by decide)).1⟩

/-! ## C2 — like-toggle parity -/

theorem likeCount_zero_find?_none (s : MState) (U P : Nat)
    (h0 : likeCount s U P = 0) :
    s.likes.find? (like_pred U P) = none := by
  refine List.find?_eq_none.mpr ?_
  have := List.length_eq_zero.mp h0
  intro x hx hpx
  have : x ∈ s.likes.filter (like_pred U P) :=
    List.mem_filter.mpr ⟨hx, hpx⟩
  simp [List.length_eq_zero.mp h0] at this

/-- One like-toggle call from a state with no like for `(U, P)`: the like
is inserted, the counter goes up by one, and the response reports the new
state. -/
theorem toggleLike_step_insert (U P now : Nat) (s : MState) (q : MPost)
    (hq : s.posts.find? (fun p => p.id == P) = some q)
    (h0 : likeCount s U P = 0) :
    (toggleLike U P now s).1 = .ok true (q.likes_count + 1) ∧
    (toggleLike U P now s).2.posts.find? (fun p => p.id == P) =
      some { q with likes_count := q.likes_count + 1 } ∧
    likeCount (toggleLike U P now s).2 U P = 1 := by
  have hnone := likeCount_zero_find?_none s U P h0
  have hpq := List.find?_some hq
  have hfu := find?_update_one (fun p => p.id == P)
    (fun p => { p with likes_count := p.likes_count + 1 }) s.posts q hq hpq
  have h0' : (s.likes.filter (like_pred U P)).length = 0 := h0
  refine ⟨?_, ?_, ?_⟩ <;>
    simp only [toggleLike, check_post_exists, hq, hnone, hfu, likeCount,
      m_create_notification_posts, m_create_notification_likes,
      List.filter_append, List.length_append, h0']
  all_goals simp [like_pred]

/-- One like-toggle call from a state with exactly one like for `(U, P)`:
the like is removed, the counter goes down by one, and the response
reports the new state. -/
theorem toggleLike_step_delete (U P now : Nat) (s : MState) (q : MPost)
    (hq : s.posts.find? (fun p => p.id == P) = some q)
    (h1 : likeCount s U P = 1) :
    (toggleLike U P now s).1 = .ok false (q.likes_count - 1) ∧
    (toggleLike U P now s).2.posts.find? (fun p => p.id == P) =
      some { q with likes_count := q.likes_count - 1 } ∧
    likeCount (toggleLike U P now s).2 U P = 0 := by
  have hsome : (s.likes.find? (like_pred U P)).isSome := by
    obtain ⟨a, ha⟩ := List.length_eq_one.mp h1
    have hmem : a ∈ s.likes.filter (like_pred U P) := by
      rw [ha]; exact List.mem_cons_self a []
    rw [List.find?_isSome]
    exact ⟨a, (List.mem_filter.mp hmem).1, (List.mem_filter.mp hmem).2⟩
  obtain ⟨lk, hlk⟩ := Option.isSome_iff_exists.mp hsome
  have hpq := List.find?_some hq
  have hfu := find?_update_one (fun p => p.id == P)
    (fun p => { p with likes_count := p.likes_count - 1 }) s.posts q hq hpq
  have hdel := filter_delete_one_length (like_pred U P) s.likes lk hlk
  have h1' : (s.likes.filter (like_pred U P)).length = 1 := h1
  refine ⟨?_, ?_, ?_⟩ <;>
    simp only [toggleLike, check_post_exists, hq, hlk, hfu, likeCount,
      m_delete_notification_posts, m_delete_notification_likes]
  omega

/-- Invariant-carrying induction behind the parity claim: starting from a
state owning the post and holding `b ≤ 1` likes for `(U, P)`, `n` toggles
leave `(b + n) % 2` likes and shift the counter by `(b + n) % 2 - b`. -/
theorem toggleLikeIter_invariant (U P now : Nat) (n : Nat) :
    ∀ (s : MState) (q : MPost) (b : Nat),
      s.posts.find? (fun p => p.id == P) = some q →
      likeCount s U P = b → b ≤ 1 →
      likeCount (toggleLikeIter U P now n s) U P = (b + n) % 2 ∧
      (toggleLikeIter U P now n s).posts.find? (fun p => p.id == P) =
        some { q with likes_count :=
          q.likes_count + (((b + n) % 2 : Nat) : Int) - (b : Int) } := by
  induction n with
  | zero =>
    intro s q b hq hb hble
    constructor
    · show likeCount s U P = (b + 0) % 2
      omega
    · show s.posts.find? (fun p => p.id == P) =
        some { q with likes_count :=
          q.likes_count + (((b + 0) % 2 : Nat) : Int) - (b : Int) }
      have hd : q.likes_count + (((b + 0) % 2 : Nat) : Int) - (b : Int) =
          q.likes_count := by omega
      rw [hd]
      exact hq
  | succ n ih =>
    intro s q b hq hb hble
    rw [toggleLikeIter]
    interval_cases b
    · have hstep := toggleLike_step_insert U P now s q hq hb
      have ihres := ih (toggleLike U P now s).2
        { q with likes_count := q.likes_count + 1 } 1 hstep.2.1 hstep.2.2
        (le_refl 1)
      refine ⟨?_, ?_⟩
      · rw [ihres.1]
        omega
      · rw [ihres.2]
        obtain ⟨pid, puid, plc, pcc⟩ := q
        simp only [Option.some.injEq, MPost.mk.injEq, eq_self_iff_true,
          true_and, and_true]
        omega
    · have hstep := toggleLike_step_delete U P now s q hq hb
      have ihres := ih (toggleLike U P now s).2
        { q with likes_count := q.likes_count - 1 } 0 hstep.2.1 hstep.2.2
        (by omega)
      refine ⟨?_, ?_⟩
      · rw [ihres.1]
        omega
      · rw [ihres.2]
        obtain ⟨pid, puid, plc, pcc⟩ := q
        simp only [Option.some.injEq, MPost.mk.injEq, eq_self_iff_true,
          true_and, and_true]
        omega

/-- Counterexample to C2 as stated: starting from a state in which user 7
has already liked post 1 (baseline `likes_count = 1`), a single (odd)
toggle leaves zero like documents for `(7, 1)` and the counter at
baseline − 1, not one like and baseline + 1. -/
theorem toggleLike_parity_baseline_counterexample :
    likeCount exLiked 7 1 = 1 ∧
    likeCount ((toggleLike 7 1 99 exLiked).2) 7 1 = 0 ∧
    (toggleLike 7 1 99 exLiked).2.posts =
      [{ id := 1, user_id := 10, likes_count := 0, comments_count := 0 }] := by
  decide

/-- C2 (amended): for every user `U` and existing post `P`, starting from
a state with no like for `(U, P)`, an odd number of toggle calls leaves
exactly one like document for `(U, P)` and the counter one above baseline,
an even number restores the like-absence and the baseline counter exactly,
and each call returns `{liked, likes_count}` reflecting the state it
produced. -/
theorem toggleLike_parity (U P now n : Nat) (st : MState) (p0 : MPost)
    (hp : st.posts.find? (fun p => p.id == P) = some p0)
    (h0 : likeCount st U P = 0) :
    (Odd n → likeCount (toggleLikeIter U P now n st) U P = 1 ∧
      (toggleLikeIter U P now n st).posts.find? (fun p => p.id == P) =
        some { p0 with likes_count := p0.likes_count + 1 }) ∧
    (Even n → likeCount (toggleLikeIter U P now n st) U P = 0 ∧
      (toggleLikeIter U P now n st).posts.find? (fun p => p.id == P) =
        some p0) ∧
    (∀ s q, s.posts.find? (fun p => p.id == P) = some q →
      likeCount s U P ≤ 1 →
      ∃ q', (toggleLike U P now s).2.posts.find? (fun p => p.id == P) =
          some q' ∧
        (toggleLike U P now s).1 =
          .ok (decide (likeCount (toggleLike U P now s).2 U P = 1))
            q'.likes_count) := by
  obtain ⟨pid, puid, plc, pcc⟩ := p0
  have hinv := toggleLikeIter_invariant U P now n st ⟨pid, puid, plc, pcc⟩ 0
    hp h0 (by omega)
  refine ⟨?_, ?_, ?_⟩
  · intro hodd
    have hmod : (0 + n) % 2 = 1 := by
      obtain ⟨k, hk⟩ := hodd; omega
    refine ⟨by rw [hinv.1, hmod], ?_⟩
    have hp2 := hinv.2
    rw [hmod] at hp2
    have heq : plc + ((1 : Nat) : Int) - ((0 : Nat) : Int) = plc + 1 := by
      omega
    simp only [heq] at hp2
    exact hp2
  · intro heven
    have hmod : (0 + n) % 2 = 0 := by
      obtain ⟨k, hk⟩ := heven; omega
    refine ⟨by rw [hinv.1, hmod], ?_⟩
    have hp2 := hinv.2
    rw [hmod] at hp2
    have heq : plc + ((0 : Nat) : Int) - ((0 : Nat) : Int) = plc := by
      omega
    simp only [heq] at hp2
    exact hp2
  · intro s q hqs hle
    rcases Nat.lt_or_ge (likeCount s U P) 1 with hlt | hge
    · have hzero : likeCount s U P = 0 := by omega
      have hstep := toggleLike_step_insert U P now s q hqs hzero
      exact ⟨_, hstep.2.1, by rw [hstep.1, hstep.2.2]; simp⟩
    · have hone : likeCount s U P = 1 := by omega
      have hstep := toggleLike_step_delete U P now s q hqs hone
      exact ⟨_, hstep.2.1, by rw [hstep.1, hstep.2.2]; simp⟩

/-- Witness for C2 on the concrete unliked state: three toggles (odd)
leave exactly one like and `likes_count = 1`. -/
theorem toggleLike_parity_witness :
    (exUnliked.posts.find? (fun p => p.id == 1) =
      some { id := 1, user_id := 10, likes_count := 0, comments_count := 0 } ∧
     likeCount exUnliked 7 1 = 0 ∧ Odd 3) ∧
    likeCount (toggleLikeIter 7 1 99 3 exUnliked) 7 1 = 1 := by
  refine ⟨⟨by decide, by decide, ⟨1, by omega⟩⟩, ?_⟩
  exact ((toggleLike_parity 7 1 99 3 exUnliked
    { id := 1, user_id := 10, likes_count := 0, comments_count := 0 }
    (by decide) (by decide)).1 ⟨1, by omega⟩).1

/-! ## C4 — addReply effects -/

/-- C4: for every existing comment `c` on an existing post `P`, adding a
reply with non-empty trimmed content creates a reply whose post id is
denormalized from the comment, increments the comment's `replies_count`
and the post's `comments_count` by exactly one each, creates a
reply-added notification to the comment owner unless the replier is that
owner, and creates a second notification to the post owner if and only if
the post owner differs from both the comment owner and the replier. -/
theorem addReply_spec (U cid : Nat) (content : String) (rid now : Nat)
    (st : MState) (c : MComment) (P : MPost)
    (hcontent : (py_strip content).isEmpty = false)
    (hc : st.comments.find? (fun x => x.id == cid) = some c)
    (hp : st.posts.find? (fun p => p.id == c.post_id) = some P) :
    ∃ rep : MReply,
      (addReply U cid content rid now st).1 = .created rep ∧
      rep.post_id = c.post_id ∧
      (addReply U cid content rid now st).2.replies = st.replies ++ [rep] ∧
      (addReply U cid content rid now st).2.comments.find?
          (fun x => x.id == cid) =
        some { c with replies_count := c.replies_count + 1 } ∧
      (addReply U cid content rid now st).2.posts.find?
          (fun p => p.id == c.post_id) =
        some { P with comments_count := P.comments_count + 1 } ∧
      (addReply U cid content rid now st).2.notifications =
        (st.notifications ++
          (if c.user_id = U then [] else
            [{ recipient_id := c.user_id, actor_id := U,
               ntype := "reply_added", post_id := some c.post_id,
               comment_id := some c.id, reply_id := some rid }])) ++
          (if P.user_id ≠ c.user_id ∧ P.user_id ≠ U then
            [{ recipient_id := P.user_id, actor_id := U,
               ntype := "reply_added", post_id := some c.post_id,
               comment_id := some c.id, reply_id := some rid }] else []) := by
  refine ⟨{ id := rid, user_id := U, comment_id := cid,
            post_id := c.post_id, content := py_strip content,
            likes_count := 0, created_at := now }, ?_⟩
  have hcq := List.find?_some hc
  have hpq := List.find?_some hp
  have hcu := find?_update_one (fun x => x.id == cid)
    (fun x => { x with replies_count := x.replies_count + 1 }) st.comments c
    hc hcq
  have hpu := find?_update_one (fun p => p.id == c.post_id)
    (fun p => { p with comments_count := p.comments_count + 1 }) st.posts P
    hp hpq
  refine ⟨?_, rfl, ?_, ?_, ?_, ?_⟩ <;>
    simp only [addReply, hcontent, Bool.false_eq_true, if_false,
      check_comment_exists, hc, hcu, hpu, Option.map_some']
  · simp [apply_ite MState.replies, m_create_notification_replies]
  · simp only [apply_ite MState.comments, m_create_notification_comments,
      ite_self]
    exact hcu
  · simp only [apply_ite MState.posts, m_create_notification_posts,
      ite_self]
    exact hpu
  · by_cases h1 : c.user_id = U
    · by_cases h3 : P.user_id = U
      · simp [m_create_notification, h1, h3]
      · simp [m_create_notification, h1, h3]
    · by_cases h2 : P.user_id ≠ c.user_id ∧ P.user_id ≠ U
      · simp [m_create_notification, h1, h2, h2.1, h2.2]
      · simp [m_create_notification, h1, h2]

/-- Witness for C4 on the populated example state: user 12 replies to
comment 2 (owned by 11) on post 1 (owned by 10). -/
theorem addReply_spec_witness :
    ∃ rep : MReply,
      (addReply 12 2 "  hello " 4 50 exRich).1 = .created rep ∧
      rep.post_id = 1 := by
  obtain ⟨rep, h1, h2, -, -, -, -⟩ :=
    addReply_spec 12 2 "  hello " 4 50 exRich
      { id := 2, post_id := 1, user_id := 11, replies_count := 1 }
      { id := 1, user_id := 10, likes_count := 1, comments_count := 2 }
      (by decide) (by decide) (by decide)
  exact ⟨rep, h1, h2⟩

/-! ## C6 — deleteReply effects -/

/-- Counterexample to C6 as stated: deleting reply 3 (by its owner, user
12) succeeds but leaves the `reply_liked` notification that references the
reply untouched — `ReplyModify.delete` never deletes notifications. -/
theorem deleteReply_notification_counterexample :
    (deleteReply 12 3 exRich).1 = .ok ∧
    ({ recipient_id := 12, actor_id := 13, ntype := "reply_liked",
       post_id := some 1, comment_id := some 2,
       reply_id := some 3 } : MNotif) ∈
      (deleteReply 12 3 exRich).2.notifications := by
  decide

/-- C6 (amended): deleting a reply, invoked by the reply owner or by the
owner of the reply's post, deletes all ReplyLikes of the reply, decrements
the parent comment's `replies_count` and the post's `comments_count` by
exactly one each, and deletes the reply document, while leaving the
notifications collection unchanged (no notification referencing the reply
is deleted); any other caller is rejected with a forbidden error and no
mutation. -/
theorem deleteReply_spec (U rid : Nat) (st : MState) (rep : MReply)
    (C : MComment) (P : MPost)
    (hr : st.replies.find? (fun r => r.id == rid) = some rep)
    (hp : st.posts.find? (fun p => p.id == rep.post_id) = some P)
    (hcm : st.comments.find? (fun x => x.id == rep.comment_id) = some C)
    (hauth : U = rep.user_id ∨ U = P.user_id)
    (hone : (st.replies.filter (fun r => r.id == rid)).length = 1) :
    (deleteReply U rid st).1 = .ok ∧
    (∀ rl ∈ (deleteReply U rid st).2.reply_likes, rl.reply_id ≠ rid) ∧
    (∀ r ∈ (deleteReply U rid st).2.replies, r.id ≠ rid) ∧
    (deleteReply U rid st).2.comments.find? (fun x => x.id == rep.comment_id)
      = some { C with replies_count := C.replies_count - 1 } ∧
    (deleteReply U rid st).2.posts.find? (fun p => p.id == rep.post_id)
      = some { P with comments_count := P.comments_count - 1 } ∧
    (deleteReply U rid st).2.notifications = st.notifications ∧
    (∀ u, u ≠ rep.user_id → u ≠ P.user_id →
      deleteReply u rid st = (.forbidden, st)) := by
  have hcq := List.find?_some hcm
  have hpq := List.find?_some hp
  have hcu := find?_update_one (fun x => x.id == rep.comment_id)
    (fun x => { x with replies_count := x.replies_count - 1 }) st.comments C
    hcm hcq
  have hpu := find?_update_one (fun p => p.id == rep.post_id)
    (fun p => { p with comments_count := p.comments_count - 1 }) st.posts P
    hp hpq
  have hneg : ¬(rep.user_id ≠ U ∧ P.user_id ≠ U) := by
    rcases hauth with h | h
    · exact fun hcon => hcon.1 h.symm
    · exact fun hcon => hcon.2 h.symm
  refine ⟨?_, ?_, ?_, ?_, ?_, ?_, ?_⟩ <;>
    simp only [deleteReply, check_reply_exists, hr, hp, if_neg hneg]
  · intro rl hrl
    have := (mem_delete_many _ _ _).mp hrl
    simpa using this.2
  · intro r hmem hid
    have hzero : ((delete_one (fun r => r.id == rid) st.replies).filter
        (fun r => r.id == rid)).length = 0 := by
      have := filter_delete_one_length (fun r => r.id == rid) st.replies
        rep hr
      omega
    have : r ∈ (delete_one (fun r => r.id == rid) st.replies).filter
        (fun r => r.id == rid) :=
      List.mem_filter.mpr ⟨hmem, by simp [hid]⟩
    rw [List.length_eq_zero.mp hzero] at this
    simp at this
  · exact hcu
  · exact hpu
  · intro u hu1 hu2
    have hif : rep.user_id ≠ u ∧ P.user_id ≠ u := ⟨hu1.symm, hu2.symm⟩
    simp only [deleteReply, check_reply_exists, hr, hp, if_pos hif]

/-- Witness for C6 on the populated state: the post owner (user 10)
deletes reply 3; counters drop and the reply disappears. -/
theorem deleteReply_spec_witness :
    (deleteReply 10 3 exRich).1 = .ok ∧
    (deleteReply 10 3 exRich).2.notifications = exRich.notifications := by
  have h := deleteReply_spec 10 3 exRich
    { id := 3, user_id := 12, comment_id := 2, post_id := 1,
      content := "hi", likes_count := 1, created_at := 5 }
    { id := 2, post_id := 1, user_id := 11, replies_count := 1 }
    { id := 1, user_id := 10, likes_count := 1, comments_count := 2 }
    (by decide) (by decide) (by decide) (Or.inr (by decide)) (by decide)
  exact ⟨h.1, h.2.2.2.2.2.1⟩

/-! ## C8 — deletePost reporting -/

/-- Counterexample to C8 as stated: two states whose cascades delete
different numbers of documents produce identical caller-visible responses,
so the response does not report the per-category deleted counts; the
counts only reach the server log. -/
theorem deletePost_counts_counterexample :
    (deletePost 10 1 exLiked).1 = (deletePost 10 1 exUnliked).1 ∧
    (deletePost 10 1 exLiked).2.1 ≠ (deletePost 10 1 exUnliked).2.1 := by
  decide

/-- C8 (amended): a successful deletePost returns only the message
`Post deleted successfully` to the caller; the per-category deleted counts
(post likes, comments, replies, notifications — comment/reply like
deletions are not counted) are written to the server-side log. -/
theorem deletePost_logs_counts (U pid : Nat) (st : MState) (p : MPost)
    (hfind : st.posts.find? (fun x => x.id == pid && x.user_id == U)
      = some p) :
    (deletePost U pid st).1 = .ok "Post deleted successfully" ∧
    (deletePost U pid st).2.1 = some
      { likes_deleted :=
          (st.likes.filter (fun l => l.post_id == pid)).length,
        comments_deleted :=
          (st.comments.filter (fun c => c.post_id == pid)).length,
        replies_deleted :=
          (st.replies.filter (fun r =>
            ((st.comments.filter (fun c => c.post_id == pid)).map
              (fun c => c.id)).contains r.comment_id)).length,
        notifications_deleted :=
          (st.notifications.filter
            (fun n => n.post_id == some pid)).length } := by
  have hmem := List.mem_of_find?_eq_some hfind
  have hpid := List.find?_some hfind
  rw [Bool.and_eq_true] at hpid
  have hex : st.posts.any (fun x => x.id == pid) = true :=
    List.any_eq_true.mpr ⟨p, hmem, hpid.1⟩
  by_cases hce :
      ((st.comments.filter (fun c => c.post_id == pid)).map
        (fun c => c.id)).isEmpty
  · have hrep : (st.replies.filter (fun r =>
        ((st.comments.filter (fun c => c.post_id == pid)).map
          (fun c => c.id)).contains r.comment_id)).length = 0 := by
      rw [List.isEmpty_iff] at hce
      simp [hce]
    constructor <;>
      simp only [deletePost, hfind, hce, hex, Bool.not_true, Bool.false_eq_true,
        if_false, if_true, delete_many, hrep]
  · constructor <;>
      simp only [deletePost, hfind, hce, hex, Bool.not_true, Bool.false_eq_true,
        if_false, if_true, delete_many]

/-- Witness for C8: deleting post 1 from the populated state logs one like,
one comment, one reply and two notifications. -/
theorem deletePost_logs_counts_witness :
    (deletePost 10 1 exRich).1 = .ok "Post deleted successfully" ∧
    (deletePost 10 1 exRich).2.1 = some
      { likes_deleted := 1, comments_deleted := 1, replies_deleted := 1,
        notifications_deleted := 2 } := by
  have h := deletePost_logs_counts 10 1 exRich
    { id := 1, user_id := 10, likes_count := 1, comments_count := 2 }
    (by decide)
  exact ⟨h.1, by rw [h.2]; decide⟩

/-! ## C1 — deletePost cascades over every dependent record -/

theorem contains_iff_mem {α : Type} [BEq α] [LawfulBEq α] (l : List α)
    (a : α) : l.contains a = true ↔ a ∈ l := by
  simp [List.contains, List.elem_iff]

/-- C1: deleting a post by its owner deletes every dependent record
transitively reachable from it — all likes of the post, all comments, all
comment likes of those comments, all replies to those comments, all reply
likes of those replies, all notifications referencing the post — and the
post itself; afterwards no dependent document referencing the post, its
comments, or their replies remains.  The well-formedness hypotheses state
that the denormalized references maintained by the creating routes are
consistent: post ids are unique, a reply denormalizing the post id sits
under a comment of that post, a reply like denormalizing the post or
comment sits under a reply of the post, and every notification referencing
a comment or reply of the post also carries the post reference (every
creating call site passes `post_id`). -/
theorem deletePost_cascade (U pid : Nat) (st : MState) (p : MPost)
    (hfind : st.posts.find? (fun x => x.id == pid && x.user_id == U)
      = some p)
    (hpostu : (st.posts.filter (fun x => x.id == pid)).length ≤ 1)
    (hreply : ∀ r ∈ st.replies, r.post_id = pid →
      r.comment_id ∈ commentIdsOf st pid)
    (hrlike : ∀ rl ∈ st.reply_likes,
      rl.post_id = pid ∨ rl.comment_id ∈ commentIdsOf st pid →
      rl.reply_id ∈ replyIdsOf st pid)
    (hnotif : ∀ n ∈ st.notifications,
      ((∃ c ∈ commentIdsOf st pid, n.comment_id = some c) ∨
       (∃ r ∈ replyIdsOf st pid, n.reply_id = some r)) →
      n.post_id = some pid) :
    (∀ l ∈ (deletePost U pid st).2.2.likes, l.post_id ≠ pid) ∧
    (∀ c ∈ (deletePost U pid st).2.2.comments, c.post_id ≠ pid) ∧
    (∀ cl ∈ (deletePost U pid st).2.2.comment_likes,
      cl.comment_id ∉ commentIdsOf st pid) ∧
    (∀ r ∈ (deletePost U pid st).2.2.replies,
      r.comment_id ∉ commentIdsOf st pid ∧ r.post_id ≠ pid) ∧
    (∀ rl ∈ (deletePost U pid st).2.2.reply_likes,
      rl.reply_id ∉ replyIdsOf st pid ∧
      rl.comment_id ∉ commentIdsOf st pid ∧ rl.post_id ≠ pid) ∧
    (∀ n ∈ (deletePost U pid st).2.2.notifications,
      n.post_id ≠ some pid ∧
      (∀ c ∈ commentIdsOf st pid, n.comment_id ≠ some c) ∧
      (∀ r ∈ replyIdsOf st pid, n.reply_id ≠ some r)) ∧
    (∀ q ∈ (deletePost U pid st).2.2.posts, q.id ≠ pid) := by
  have hmem := List.mem_of_find?_eq_some hfind
  have hpid := List.find?_some hfind
  rw [Bool.and_eq_true] at hpid
  have hex : st.posts.any (fun x => x.id == pid) = true :=
    List.any_eq_true.mpr ⟨p, hmem, hpid.1⟩
  -- The surviving posts hold no document with the deleted id.
  have hposts : ∀ q ∈ delete_one (fun x => x.id == pid) st.posts,
      q.id ≠ pid := by
    have hfp : (st.posts.find? (fun x => x.id == pid)).isSome := by
      rw [List.find?_isSome]
      exact ⟨p, hmem, hpid.1⟩
    obtain ⟨a, ha⟩ := Option.isSome_iff_exists.mp hfp
    have hlen := filter_delete_one_length (fun x => x.id == pid) st.posts a ha
    have hge : 1 ≤ (st.posts.filter (fun x => x.id == pid)).length :=
      List.length_pos.mpr (List.ne_nil_of_mem
        (List.mem_filter.mpr ⟨hmem, hpid.1⟩))
    have hzero : ((delete_one (fun x => x.id == pid) st.posts).filter
        (fun x => x.id == pid)).length = 0 := by omega
    intro q hq hqe
    have : q ∈ (delete_one (fun x => x.id == pid) st.posts).filter
        (fun x => x.id == pid) :=
      List.mem_filter.mpr ⟨hq, by simp [hqe]⟩
    rw [List.length_eq_zero.mp hzero] at this
    simp at this
  by_cases hce : (commentIdsOf st pid).isEmpty
  · -- The post has no comments: the comment-scoped cascades are no-ops
    -- and vacuously complete.
    have hceq : commentIdsOf st pid = [] := List.isEmpty_iff.mp hce
    have hrideq : replyIdsOf st pid = [] := by
      unfold replyIdsOf
      rw [hceq]
      simp
    have hceU : ((st.comments.filter (fun c => c.post_id == pid)).map
        (fun c => c.id)).isEmpty = true := hce
    refine ⟨?_, ?_, ?_, ?_, ?_, ?_, ?_⟩ <;>
      simp only [deletePost, hfind, hex, Bool.not_true, Bool.false_eq_true,
        if_false, hceU, if_true]
    · intro l hl
      have := (mem_delete_many _ _ _).mp hl
      simpa using this.2
    · intro c hc
      have := (mem_delete_many _ _ _).mp hc
      simpa using this.2
    · intro cl _
      rw [hceq]
      simp
    · intro r hr
      rw [hceq]
      refine ⟨by simp, fun hrp => ?_⟩
      have := hreply r hr hrp
      rw [hceq] at this
      simp at this
    · intro rl hrl
      rw [hceq, hrideq]
      refine ⟨by simp, by simp, fun hrp => ?_⟩
      have := hrlike rl hrl (Or.inl hrp)
      rw [hrideq] at this
      simp at this
    · intro n hn
      have hsurv := (mem_delete_many _ _ _).mp hn
      refine ⟨by simpa using hsurv.2, ?_, ?_⟩
      · rw [hceq]; simp
      · rw [hrideq]; simp
    · exact hposts
  · -- The post has comments.
    have hceU : ((st.comments.filter (fun c => c.post_id == pid)).map
        (fun c => c.id)).isEmpty = false := by
      rw [Bool.eq_false_iff]
      exact hce
    refine ⟨?_, ?_, ?_, ?_, ?_, ?_, ?_⟩ <;>
      simp only [deletePost, hfind, hex, Bool.not_true, Bool.false_eq_true,
        if_false, hceU]
    · intro l hl
      have := (mem_delete_many _ _ _).mp hl
      simpa using this.2
    · intro c hc
      have := (mem_delete_many _ _ _).mp hc
      simpa using this.2
    · intro cl hcl
      have hsurv := (mem_delete_many _ _ _).mp hcl
      intro hin
      have hcon : (commentIdsOf st pid).contains cl.comment_id = true :=
        (contains_iff_mem _ _).mpr hin
      rw [commentIdsOf] at hcon
      rw [hcon] at hsurv
      simp at hsurv
    · intro r hr
      have hsurv := (mem_delete_many _ _ _).mp hr
      have hnotin : r.comment_id ∉ commentIdsOf st pid := by
        intro hin
        have hcon : (commentIdsOf st pid).contains r.comment_id = true :=
          (contains_iff_mem _ _).mpr hin
        rw [commentIdsOf] at hcon
        rw [hcon] at hsurv
        simp at hsurv
      exact ⟨hnotin, fun hrp => hnotin (hreply r hsurv.1 hrp)⟩
    · intro rl hrl
      by_cases hre : (replyIdsOf st pid).isEmpty
      · have hrideq : replyIdsOf st pid = [] := List.isEmpty_iff.mp hre
        have hreU : ((st.replies.filter (fun r =>
            ((st.comments.filter (fun c => c.post_id == pid)).map
              (fun c => c.id)).contains r.comment_id)).map
            (fun r => r.id)).isEmpty = true := hre
        simp only [hreU, if_true] at hrl
        have hnotin : rl.reply_id ∉ replyIdsOf st pid := by
          rw [hrideq]; simp
        refine ⟨hnotin, ?_, ?_⟩
        · intro hin
          exact hnotin (hrlike rl hrl (Or.inr hin))
        · intro hrp
          exact hnotin (hrlike rl hrl (Or.inl hrp))
      · have hreU : ((st.replies.filter (fun r =>
            ((st.comments.filter (fun c => c.post_id == pid)).map
              (fun c => c.id)).contains r.comment_id)).map
            (fun r => r.id)).isEmpty = false := by
          rw [Bool.eq_false_iff]
          exact hre
        simp only [hreU, Bool.false_eq_true, if_false] at hrl
        have hsurv := (mem_delete_many _ _ _).mp hrl
        have hnotin : rl.reply_id ∉ replyIdsOf st pid := by
          intro hin
          have hcon : (replyIdsOf st pid).contains rl.reply_id = true :=
            (contains_iff_mem _ _).mpr hin
          rw [replyIdsOf, commentIdsOf] at hcon
          rw [hcon] at hsurv
          simp at hsurv
        refine ⟨hnotin, ?_, ?_⟩
        · intro hin
          exact hnotin (hrlike rl hsurv.1 (Or.inr hin))
        · intro hrp
          exact hnotin (hrlike rl hsurv.1 (Or.inl hrp))
    · intro n hn
      have hsurv := (mem_delete_many _ _ _).mp hn
      have hnp : n.post_id ≠ some pid := by simpa using hsurv.2
      refine ⟨hnp, ?_, ?_⟩
      · intro c hcin hceq2
        exact hnp (hnotif n hsurv.1 (Or.inl ⟨c, hcin, hceq2⟩))
      · intro r hrin hreq
        exact hnp (hnotif n hsurv.1 (Or.inr ⟨r, hrin, hreq⟩))
    · exact hposts

/-- Witness for C1 on the populated example state: post 1 carries a like,
a comment with a comment like, a reply with a reply like and two
notifications; after deletion by the owner nothing referencing them
remains. -/
theorem deletePost_cascade_witness :
    (∀ l ∈ (deletePost 10 1 exRich).2.2.likes, l.post_id ≠ 1) ∧
    (∀ n ∈ (deletePost 10 1 exRich).2.2.notifications,
      n.post_id ≠ some 1 ∧
      (∀ c ∈ commentIdsOf exRich 1, n.comment_id ≠ some c) ∧
      (∀ r ∈ replyIdsOf exRich 1, n.reply_id ≠ some r)) ∧
    (∀ q ∈ (deletePost 10 1 exRich).2.2.posts, q.id ≠ 1) := by
  have h := deletePost_cascade 10 1 exRich
    { id := 1, user_id := 10, likes_count := 1, comments_count := 2 }
    (by decide) (by decide) (by decide) (by decide) (by decide)
  exact ⟨h.1, h.2.2.2.2.2.1, h.2.2.2.2.2.2⟩

/-! ## C5 — Firestore deleteComment -/

theorem fs_delete_notifications_subset (r s p c t : Option String)
    (st : FsState) :
    ∀ n, n ∈ ((fs_delete_notifications r s p c t st).2).notifications →
      n ∈ st.notifications := by
  unfold fs_delete_notifications
  split
  · exact fun n h => h
  · exact fun n h => ((mem_delete_many _ _ _).mp h).1

theorem fs_delete_notifications_posts (r s p c t : Option String)
    (st : FsState) :
    ((fs_delete_notifications r s p c t st).2).posts = st.posts := by
  unfold fs_delete_notifications
  split <;> rfl

/-- With at least one truthy filter, the deleter keeps exactly the
non-matching notifications. -/
theorem fs_delete_notifications_filter (r s p c t : Option String)
    (st : FsState)
    (hguard : (truthy r || truthy s || truthy p || truthy c || truthy t)
      = true) :
    ((fs_delete_notifications r s p c t st).2).notifications =
      st.notifications.filter
        (fun n => !(fs_notif_matches r s p c t n)) := by
  unfold fs_delete_notifications
  rw [hguard]
  rfl

/-- Deleting by a non-empty comment id leaves no notification referencing
that comment. -/
theorem fs_delete_by_comment_clean (x : String) (hx : x.isEmpty = false)
    (st : FsState) :
    ∀ n ∈ ((fs_delete_notifications none none none (some x)
        none st).2).notifications, n.commentId ≠ some x := by
  intro n hn hcn
  have hguard : (truthy none || truthy none || truthy none ||
      truthy (some x) || truthy none) = true := by
    simp [truthy, hx]
  rw [fs_delete_notifications_filter none none none (some x) none st
    hguard] at hn
  have hmatch := (List.mem_filter.mp hn).2
  simp [fs_notif_matches, truthy, hx, hcn] at hmatch

/-- A projection preserved by every fold step is preserved by the fold. -/
theorem foldl_proj_invariant {β γ : Type} (f : FsState → γ)
    (step : FsState → β → FsState)
    (hstep : ∀ A b, f (step A b) = f A) (l : List β) :
    ∀ A, f (l.foldl step A) = f A := by
  induction l with
  | nil => intro A; rfl
  | cons b bs ih =>
    intro A
    rw [List.foldl_cons, ih, hstep]

/-- A fold whose steps only remove notifications never adds one. -/
theorem foldl_notif_subset {β : Type} (step : FsState → β → FsState)
    (hstep : ∀ A b n, n ∈ (step A b).notifications → n ∈ A.notifications)
    (l : List β) :
    ∀ A n, n ∈ (l.foldl step A).notifications → n ∈ A.notifications := by
  induction l with
  | nil => exact fun A n hn => hn
  | cons b bs ih =>
    intro A n hn
    exact hstep A b n (ih (step A b) n hn)

/-- A fold whose step over `b` leaves only notifications satisfying `Q b`
(and never adds any) leaves only notifications satisfying `Q b` for every
`b` it processed. -/
theorem foldl_notif_clean {β : Type} (step : FsState → β → FsState)
    (Q : β → FsNotif → Prop)
    (hsub : ∀ A b n, n ∈ (step A b).notifications → n ∈ A.notifications)
    (l : List β)
    (hclean : ∀ b ∈ l, ∀ A n, n ∈ (step A b).notifications → Q b n) :
    ∀ A n, n ∈ (l.foldl step A).notifications → ∀ b ∈ l, Q b n := by
  induction l with
  | nil =>
    intro A n _ b hb
    simp at hb
  | cons b bs ih =>
    intro A n hn b' hb'
    rcases List.mem_cons.mp hb' with h | h
    · subst h
      exact hclean b' (List.mem_cons_self _ _) A n
        (foldl_notif_subset step hsub bs (step A b') n hn)
    · exact ih (fun x hx => hclean x (List.mem_cons_of_mem b hx)) (step A b)
        n hn b' h

/-- Counterexample to C5 as stated: `bob` owns post `p1` but did not write
comment `c1` (by `alice`); the delete-comment route rejects him with 403
and mutates nothing, although the claim says the post owner may delete. -/
theorem fs_deleteComment_post_owner_counterexample :
    (exFs.posts.find? (fun p => p.id == "p1")).map (fun p => p.userId) =
      some "bob" ∧
    (exFs.comments.find? (fun c => c.id == "c1")).map (fun c => c.userId) =
      some "alice" ∧
    fs_deleteComment "bob" "c1" exFs = (.forbidden, exFs) := by
  decide

/-- C5 (amended): deleteComment invoked by the comment author (and only by
the comment author — the post owner and any other caller are rejected with
403) soft-deletes the comment and its replies by setting their `deleted`
flag, deletes all CommentLikes of the comment and of its replies, and
deletes every notification whose comment reference is the comment or one
of its replies; no documents are removed from the comments collection and
no counter exists to decrement (the post document is untouched). -/
theorem fs_deleteComment_spec (uid cid : String) (st : FsState)
    (c : FsComment)
    (hc : st.comments.find? (fun x => x.id == cid) = some c)
    (hown : c.userId = uid)
    (hids : ∀ x ∈ st.comments, x.id.isEmpty = false) :
    (fs_deleteComment uid cid st).1 =
      .ok "Comment and all replies deleted successfully" ∧
    (fs_deleteComment uid cid st).2.comments =
      st.comments.map (fun x =>
        if x.id == cid ||
            ((st.comments.filter (fun y => y.parentId == some cid)).map
              (fun r => r.id)).contains x.id then
          { x with deleted := true }
        else x) ∧
    (∀ l ∈ (fs_deleteComment uid cid st).2.commentLikes,
      l.commentId ≠ cid ∧
      l.commentId ∉ ((st.comments.filter
        (fun y => y.parentId == some cid)).map (fun r => r.id))) ∧
    (∀ n ∈ (fs_deleteComment uid cid st).2.notifications,
      n.commentId ≠ some cid ∧
      ∀ rid ∈ ((st.comments.filter
          (fun y => y.parentId == some cid)).map (fun r => r.id)),
        n.commentId ≠ some rid) ∧
    (fs_deleteComment uid cid st).2.posts = st.posts ∧
    (fs_deleteComment uid cid st).2.comments.length =
      st.comments.length ∧
    (∀ u, u ≠ c.userId → fs_deleteComment u cid st = (.forbidden, st)) := by
  have hnn : ¬(c.userId ≠ uid) := fun h => h hown
  have hcid : cid.isEmpty = false := by
    have hpc := List.find?_some hc
    have hcm := List.mem_of_find?_eq_some hc
    have := hids c hcm
    rwa [(by simpa using hpc : c.id = cid)] at this
  -- Subset property of the composite per-reply step of the outer fold.
  have hsub : ∀ (A : FsState) (r : FsComment) n,
      n ∈ ((fun (acc : FsState) (r : FsComment) =>
        (st.commentLikes.filter (fun l => l.commentId == r.id)).foldl
          (fun acc2 _ => (fs_delete_notifications none none none (some r.id)
            (some "comment_like") acc2).2)
          ((fs_delete_notifications none none none (some r.id) none
            acc).2)) A r).notifications →
      n ∈ A.notifications := by
    intro A r n hn
    have h1 := foldl_notif_subset _
      (fun A2 b2 n2 h2 =>
        fs_delete_notifications_subset none none none (some r.id)
          (some "comment_like") A2 n2 h2) _ _ n hn
    exact fs_delete_notifications_subset none none none (some r.id) none A
      n h1
  refine ⟨?_, ?_, ?_, ?_, ?_, ?_, ?_⟩
  · simp only [fs_deleteComment, hc, if_neg hnn]
  · simp only [fs_deleteComment, hc, if_neg hnn]
  · simp only [fs_deleteComment, hc, if_neg hnn]
    intro l hl
    have hb := (List.mem_filter.mp hl).2
    refine ⟨?_, ?_⟩
    · intro hceq
      rw [hceq] at hb
      simp at hb
    · intro hin
      rw [(contains_iff_mem _ _).mpr hin] at hb
      simp at hb
  · simp only [fs_deleteComment, hc, if_neg hnn]
    intro n hn
    -- Peel the final fold (likes of the main comment).
    have hn2 := foldl_notif_subset _
      (fun A2 b2 n2 h2 =>
        fs_delete_notifications_subset none none none (some cid)
          (some "comment_like") A2 n2 h2) _ _ n hn
    constructor
    · -- Cleanliness of the main comment reference survives the folds.
      have hn3 := foldl_notif_subset _ hsub
        (st.comments.filter (fun y => y.parentId == some cid)) _ n hn2
      exact fs_delete_by_comment_clean cid hcid st n hn3
    · -- Cleanliness of each reply reference.
      intro rid hrid
      obtain ⟨r, hrmem, hreq⟩ := List.mem_map.mp hrid
      have hclean := foldl_notif_clean _
        (fun (r : FsComment) (n : FsNotif) => n.commentId ≠ some r.id)
        hsub (st.comments.filter (fun y => y.parentId == some cid))
        (fun b hb A n2 hn2 => by
          have hbid : b.id.isEmpty = false :=
            hids b (List.mem_filter.mp hb).1
          have h1 := foldl_notif_subset _
            (fun A2 b2 n3 h2 =>
              fs_delete_notifications_subset none none none (some b.id)
                (some "comment_like") A2 n3 h2) _ _ n2 hn2
          exact fs_delete_by_comment_clean b.id hbid A n2 h1) _ n hn2
        r hrmem
      rw [← hreq]
      exact hclean
  · simp only [fs_deleteComment, hc, if_neg hnn]
    have h1 : ((fs_delete_notifications none none none (some cid) none
        st).2).posts = st.posts :=
      fs_delete_notifications_posts none none none (some cid) none st
    have h2 := foldl_proj_invariant FsState.posts
      (fun (acc : FsState) (r : FsComment) =>
        (st.commentLikes.filter (fun l => l.commentId == r.id)).foldl
          (fun acc2 _ => (fs_delete_notifications none none none
            (some r.id) (some "comment_like") acc2).2)
          ((fs_delete_notifications none none none (some r.id) none
            acc).2))
      (fun A r =>
        (foldl_proj_invariant FsState.posts
          (fun acc2 (_ : FsCommentLike) =>
            (fs_delete_notifications none none none (some r.id)
              (some "comment_like") acc2).2)
          (fun A2 _ => fs_delete_notifications_posts none none none
            (some r.id) (some "comment_like") A2)
          (st.commentLikes.filter (fun l => l.commentId == r.id))
          ((fs_delete_notifications none none none (some r.id) none
            A).2)).trans
        (fs_delete_notifications_posts none none none (some r.id) none A))
      (st.comments.filter (fun y => y.parentId == some cid))
    have h3 := foldl_proj_invariant FsState.posts
      (fun acc2 (_ : FsCommentLike) =>
        (fs_delete_notifications none none none (some cid)
          (some "comment_like") acc2).2)
      (fun A2 b2 => fs_delete_notifications_posts none none none
        (some cid) (some "comment_like") A2)
      (st.commentLikes.filter (fun l => l.commentId == cid))
    rw [h3, h2, h1]
  · simp only [fs_deleteComment, hc, if_neg hnn]
    rw [List.length_map]
  · intro u hu
    have hne : c.userId ≠ u := fun h => hu h.symm
    simp only [fs_deleteComment, hc, if_pos hne]

/-- Witness for C5 on the concrete Firestore state: `alice` deletes her
comment `c1`; the route succeeds and no surviving notification references
the comment. -/
theorem fs_deleteComment_spec_witness :
    (fs_deleteComment "alice" "c1" exFs).1 =
      .ok "Comment and all replies deleted successfully" ∧
    ∀ n ∈ (fs_deleteComment "alice" "c1" exFs).2.notifications,
      n.commentId ≠ some "c1" := by
  have h := fs_deleteComment_spec "alice" "c1" exFs
    { id := "c1", userId := "alice", postId := some "p1",
      parentId := none, text := some "t", deleted := false }
    (by decide) (by decide) (by decide)
  exact ⟨h.1, fun n hn => (h.2.2.2.1 n hn).1⟩

end DevShare
